import Mathlib

/-!
Shallow embedding of `src/app.py`, a Flask model-serving service with a
validation chain, an opaque scoring pipeline, and a peewee-backed
prediction ledger.

Modelling conventions:
* Python/JSON values are modelled by `Value`; Python dicts by association
  lists `List (String × Value)` (keys unique in practice, and all
  operations are first-match, mirroring dict semantics).
* Python floats are modelled by `FloatV` (NaN, the two infinities, and
  finite values as rationals); no float arithmetic occurs in the code,
  only classification, so this is exact for the behaviour modelled.
* A check in the source returns a pair `(True, "")` or `(False, error)`;
  here it returns `Option VErr` (`none` = pass, `some e` = fail), where
  `VErr` is a structured rendering of the error message: one constructor
  per message template, carrying exactly the data the template embeds.
  (Two messages interpolate a Python `set`, whose iteration order is not
  modelled; those constructors carry the set elements as a list in a
  canonical order.)
* The opaque pipeline (`pipeline.predict_proba` / `pipeline.predict`) is
  an explicit parameter, a pair of total functions on observations, as
  the spec treats the artifact as a black box.
* The database is a list of `Prediction` rows; `save` on a fresh model
  instance appends unless the unique constraint on `observation_id` is
  violated, in which case it raises (`IntegrityError`) and the handler
  rolls back, leaving the list unchanged.
* Uncaught Python exceptions are modelled by `Except PyExn`; the only
  raise points reachable in the handlers are `KeyError` from `d[k]`
  subscripting and `AttributeError` from calling `.keys()` on a
  non-dict (`check_valid_column` applied to a non-dict `data` value).
-/

inductive FloatV where
  | nan
  | inf
  | ninf
  | finite (q : ℚ)
deriving DecidableEq

inductive Value where
  | int (n : Int)
  | bool (b : Bool)
  | float (f : FloatV)
  | str (s : String)
  | null
  | dict (entries : List (String × Value))

/-- Python `str(value)`, as used by `"...".format(value)` in the error and
log messages. Finite non-integral floats and dicts are rendered by a
simplified placeholder (never reached by any claim). -/
def Value.toFormat : Value → String
  | .int n => toString n
  | .bool b => if b then "True" else "False"
  | .float .nan => "nan"
  | .float .inf => "inf"
  | .float .ninf => "-inf"
  | .float (.finite q) => if q.den = 1 then toString q.num ++ ".0" else toString q
  | .str s => s
  | .null => "None"
  | .dict _ => "<dict>"

/-- Python `isinstance(v, int)`: true for `int` and for `bool` (a subclass
of `int`), false for every other type. -/
def Value.isInstInt : Value → Bool
  | .int _ => true
  | .bool _ => true
  | _ => false

/-- Numeric value of a Python `int` instance (`True` is `1`, `False` is
`0`). Only read after `isInstInt` has succeeded; other constructors are
unreachable there. -/
def Value.asInt : Value → Int
  | .int n => n
  | .bool b => if b then 1 else 0
  | _ => 0

/-- Python `v is None`. -/
def Value.isNull : Value → Bool
  | .null => true
  | _ => false

/-- `np.isnan(v)`. In the source this is only evaluated after
`isinstance(v, int)` succeeded (short-circuit `or`), where it is `False`. -/
def npIsnan : Value → Bool
  | .float .nan => true
  | _ => false

/-- `np.isinf(v)`. Same short-circuit remark as `npIsnan`. -/
def npIsinf : Value → Bool
  | .float .inf => true
  | .float .ninf => true
  | _ => false

/-- Python `v in l` for a list `l` of strings: `==` between a non-string
and a string is `False`, so only a string value can be a member. -/
def Value.inStrList : Value → List String → Bool
  | .str s, l => l.contains s
  | _, _ => false

/-- Python `k in d` for a dict. -/
def pyHasKey (d : List (String × Value)) (k : String) : Bool :=
  d.any (fun p => p.1 == k)

/-- Python `d[k]` before the `KeyError` is applied: `none` means the
subscript raises. -/
def pyGetOpt (d : List (String × Value)) (k : String) : Option Value :=
  (d.find? (fun p => p.1 == k)).map (fun p => p.2)

/-- Python `d.get(k)`: a missing key yields `None`; a stored JSON `null`
also surfaces as `None`, and the source treats both alike (`is None`). -/
def pyGetD (d : List (String × Value)) (k : String) : Value :=
  (pyGetOpt d k).getD .null

/-- Python `set(d.keys())`, as a duplicate-free list (first-occurrence
order; the source only uses membership, difference and cardinality). -/
def pyKeys (d : List (String × Value)) : List String :=
  (d.map Prod.fst).dedup

/-- Structured form of the validation error messages produced by the
check functions, one constructor per message template, carrying the data
the template interpolates. -/
inductive VErr where
  /-- "Field `observation_id` missing from request: ..." (the message also
  also embeds a repr of the request, which is not modelled). -/
  | missingObservationId
  /-- "Field `data` missing from request: ..." -/
  | missingData
  /-- "Missing columns: ..." with the set of missing column names. -/
  | missingColumns (cols : List String)
  /-- "Unrecognized columns provided: ..." with the set of extra names. -/
  | unrecognizedColumns (cols : List String)
  /-- "Number of columns provided is not correct: ..." (dead branch). -/
  | wrongColumnCount (cols : List String)
  /-- "Invalid value provided for KEY: VALUE. Allowed values are: ..." -/
  | invalidCategorical (field : String) (value : Value) (allowed : List String)
  /-- "Categorical field \x7b\x7d missing" — the source forgets to apply
  `.format(key)`, so the message names no field. -/
  | categoricalMissingField
  /-- "Field `X` missing" -/
  | fieldMissing (field : String)
  /-- "Field `X` is not an integer" (names no value). -/
  | notAnInteger (field : String)
  /-- "Field `age` is not between 10 and 100. `age` is VALUE" -/
  | ageOutOfRange (value : Value)
  /-- "Field `capital-gain` is not a positive integer. `capital-gain` is VALUE" -/
  | capitalGainNegative (value : Value)
  /-- "Field `capital-loss` is not a positive integer.  `capital-loss` is VALUE" -/
  | capitalLossNegative (value : Value)
  /-- "Field `hours-per-week` is not between 0 and 168. `hours-per-week` is VALUE" -/
  | hoursOutOfRange (value : Value)

/-- `check_request` (src/app.py:56): the envelope must contain the keys
`observation_id` and `data`; only key presence is tested. -/
def check_request (req : List (String × Value)) : Option VErr :=
  if ¬ pyHasKey req "observation_id" then
    some .missingObservationId
  else if ¬ pyHasKey req "data" then
    some .missingData
  else
    none

/-- The `valid_columns` set of `check_valid_column` (src/app.py:84), in
source listing order. -/
def valid_columns : List String :=
  ["age", "sex", "race", "workclass", "education", "marital-status",
   "capital-gain", "capital-loss", "hours-per-week"]

/-- `check_valid_column` (src/app.py:75): set differences against the
nine valid columns; missing columns are reported first, then extra
columns, then a (dead) cardinality branch. -/
def check_valid_column (observation : List (String × Value)) : Option VErr :=
  let keys := pyKeys observation
  let missing := valid_columns.filter (fun c => ¬ keys.contains c)
  if missing ≠ [] then
    some (.missingColumns missing)
  else
    let extra := keys.filter (fun k => ¬ valid_columns.contains k)
    if extra ≠ [] then
      some (.unrecognizedColumns extra)
    else if keys.length ≠ 9 then
      some (.wrongColumnCount extra)
    else
      none

/-- The `valid_category_map` of `check_categorical_values`
(src/app.py:125), in source (= dict insertion) order. -/
def valid_category_map : List (String × List String) :=
  [("sex", ["Male", "Female"]),
   ("race", ["White", "Black", "Asian-Pac-Islander", "Amer-Indian-Eskimo", "Other"]),
   ("workclass", ["State-gov", "Self-emp-not-inc", "Private", "Federal-gov", "Local-gov",
                  "?", "Self-emp-inc", "Without-pay", "Never-worked"]),
   ("education", ["Bachelors", "HS-grad", "11th", "Masters", "9th", "Some-college",
                  "Assoc-acdm", "Assoc-voc", "7th-8th", "Doctorate", "Prof-school",
                  "5th-6th", "10th", "1st-4th", "Preschool", "12th"]),
   ("marital-status", ["Never-married", "Married-civ-spouse", "Divorced",
                       "Married-spouse-absent", "Separated", "Married-AF-spouse", "Widowed"])]

/-- The loop body of `check_categorical_values`, iterating the category
map in order: a present key with a value outside its category list fails
with the full message data; an absent key fails with the (unformatted)
missing-field message. -/
def checkCatsAux (m : List (String × List String))
    (observation : List (String × Value)) : Option VErr :=
  match m with
  | [] => none
  | (key, cats) :: rest =>
    if pyHasKey observation key then
      let value := pyGetD observation key
      if ¬ value.inStrList cats then
        some (.invalidCategorical key value cats)
      else
        checkCatsAux rest observation
    else
      some .categoricalMissingField

/-- `check_categorical_values` (src/app.py:115). -/
def check_categorical_values (observation : List (String × Value)) : Option VErr :=
  checkCatsAux valid_category_map observation

/-- `check_age` (src/app.py:150): present, `isinstance(_, int)` (with
short-circuited NaN/infinity tests), and in `[10, 100]`. -/
def check_age (observation : List (String × Value)) : Option VErr :=
  let age := pyGetD observation "age"
  if age.isNull then
    some (.fieldMissing "age")
  else if ¬ age.isInstInt || npIsnan age || npIsinf age then
    some (.notAnInteger "age")
  else if age.asInt < 10 || age.asInt > 100 then
    some (.ageOutOfRange age)
  else
    none

/-- `check_capital_gain` (src/app.py:176): present, an `int` instance,
and non-negative. -/
def check_capital_gain (observation : List (String × Value)) : Option VErr :=
  let capital_gain := pyGetD observation "capital-gain"
  if capital_gain.isNull then
    some (.fieldMissing "capital-gain")
  else if ¬ capital_gain.isInstInt then
    some (.notAnInteger "capital-gain")
  else if capital_gain.asInt < 0 then
    some (.capitalGainNegative capital_gain)
  else
    none

/-- `check_capital_loss` (src/app.py:201). -/
def check_capital_loss (observation : List (String × Value)) : Option VErr :=
  let capital_loss := pyGetD observation "capital-loss"
  if capital_loss.isNull then
    some (.fieldMissing "capital-loss")
  else if ¬ capital_loss.isInstInt then
    some (.notAnInteger "capital-loss")
  else if capital_loss.asInt < 0 then
    some (.capitalLossNegative capital_loss)
  else
    none

/-- `check_hours_per_week` (src/app.py:226): present, an `int` instance,
and in `[0, 168]`. -/
def check_hours_per_week (observation : List (String × Value)) : Option VErr :=
  let hours_per_week := pyGetD observation "hours-per-week"
  if hours_per_week.isNull then
    some (.fieldMissing "hours-per-week")
  else if ¬ hours_per_week.isInstInt then
    some (.notAnInteger "hours-per-week")
  else if hours_per_week.asInt < 0 || hours_per_week.asInt > 168 then
    some (.hoursOutOfRange hours_per_week)
  else
    none

/-- A row of the `Prediction` peewee model (src/app.py:24):
`observation_id` is a `TextField` with a unique constraint (values are
coerced to their string form on the way in), `observation` a
`TextField` holding the raw request body, `proba` a `FloatField`, and
`true_class` a nullable `IntegerField`. `true_class` is kept as the
assigned `Value`, which is what `model_to_dict` reports back. -/
structure Prediction where
  observation_id : String
  observation : String
  proba : ℚ
  true_class : Option Value

/-- The opaque scoring artifact: `pipeline.predict_proba(obs)[0, 1]` and
`bool(pipeline.predict(obs)[0])`, as total functions of the validated
observation (the DataFrame/dtype shaping is part of the black box). -/
structure Pipeline where
  predict_proba : List (String × Value) → ℚ
  predictLabel : List (String × Value) → Bool

/-- An inbound `/predict` request: the parsed JSON body (an object) and
the raw body bytes `request.data` that the handler stores verbatim. -/
structure PredictRequest where
  body : List (String × Value)
  raw : String

/-- Uncaught Python exceptions reachable in the handlers. -/
inductive PyExn where
  | keyError (key : String)
  | attributeError
deriving DecidableEq

/-- `p.save()` on a freshly constructed `Prediction` (src/app.py:311):
an INSERT that appends the row, unless a row with the same
`observation_id` exists, in which case the unique constraint raises
`IntegrityError` (`Except.error ()`) and nothing is persisted. -/
def dbSave (db : List Prediction) (p : Prediction) : Except Unit (List Prediction) :=
  if db.any (fun q => q.observation_id == p.observation_id) then
    .error ()
  else
    .ok (db ++ [p])

/-- Apostrophe character, for building the duplicate-id message. -/
def squote : String := String.singleton (Char.ofNat 39)

/-- "ERROR: Observation ID: <quoted id> already exists" (src/app.py:313). -/
def dupMsg (idv : Value) : String :=
  "ERROR: Observation ID: " ++ squote ++ idv.toFormat ++ squote ++ " already exists"

/-- Response of the `/predict` handler: either a bare error object
(validation failed) or the prediction/probability object, which on a
duplicate insert additionally carries the error message. -/
inductive PredictResponse where
  | errResp (e : VErr)
  | okResp (prediction : Bool) (probability : ℚ) (dupError : Option String)

/-- The `/predict` handler (src/app.py:259): envelope check, column
check, categorical check, the four numeric checks in order, each failing
one returning its error at once; then scoring, then an insert that on a
duplicate identifier rolls back and appends the duplicate message to the
already-built response. Accessing `.keys()` of a non-dict `data` value
raises `AttributeError`. -/
def predict (pipe : Pipeline) (db : List Prediction) (req : PredictRequest) :
    Except PyExn (PredictResponse × List Prediction) :=
  let obs_dict := req.body
  match check_request obs_dict with
  | some e => .ok (.errResp e, db)
  | none =>
    let _id := pyGetD obs_dict "observation_id"
    match pyGetD obs_dict "data" with
    | .dict observation =>
      match check_valid_column observation with
      | some e => .ok (.errResp e, db)
      | none =>
        match check_categorical_values observation with
        | some e => .ok (.errResp e, db)
        | none =>
          match check_age observation with
          | some e => .ok (.errResp e, db)
          | none =>
            match check_capital_gain observation with
            | some e => .ok (.errResp e, db)
            | none =>
              match check_capital_loss observation with
              | some e => .ok (.errResp e, db)
              | none =>
                match check_hours_per_week observation with
                | some e => .ok (.errResp e, db)
                | none =>
                  let proba := pipe.predict_proba observation
                  let prediction := pipe.predictLabel observation
                  let p : Prediction :=
                    ⟨_id.toFormat, req.raw, proba, none⟩
                  match dbSave db p with
                  | .ok db2 => .ok (.okResp prediction proba none, db2)
                  | .error _ => .ok (.okResp prediction proba (some (dupMsg _id)), db)
    | _ => .error .attributeError

/-- "Observation ID: \"ID\" does not exist" (src/app.py:329). -/
def notExistMsg (idv : Value) : String :=
  "Observation ID: \"" ++ idv.toFormat ++ "\" does not exist"

/-- Response of the `/update` handler: `model_to_dict` of the updated
row, or a bare error object. -/
inductive UpdateResponse where
  | record (p : Prediction)
  | errResp (msg : String)

/-- Replace the first row matching the predicate (peewee `save()` on an
instance loaded by `get`, which UPDATEs that row by primary key). -/
def replaceFirst (db : List Prediction) (pred : Prediction → Bool)
    (p : Prediction) : List Prediction :=
  match db with
  | [] => []
  | q :: rest => if pred q then p :: rest else q :: replaceFirst rest pred p

/-- The `/update` handler (src/app.py:321): `obs["observation_id"]`
raises `KeyError` if absent (only `Prediction.DoesNotExist` is caught);
`Prediction.get` loads the first matching row or raises `DoesNotExist`,
answered with the not-exists error; on a hit, `obs["true_class"]` (again
`KeyError` if absent) is assigned and the row saved, and the updated
`model_to_dict` of the updated row is returned. -/
def update (db : List Prediction) (obs : List (String × Value)) :
    Except PyExn (UpdateResponse × List Prediction) :=
  match pyGetOpt obs "observation_id" with
  | none => .error (.keyError "observation_id")
  | some idv =>
    match db.find? (fun q => q.observation_id == idv.toFormat) with
    | some p =>
      match pyGetOpt obs "true_class" with
      | none => .error (.keyError "true_class")
      | some tc =>
        let p2 : Prediction := { p with true_class := some tc }
        .ok (.record p2, replaceFirst db (fun q => q.observation_id == idv.toFormat) p2)
    | none => .ok (.errResp (notExistMsg idv), db)

/-- The `/list-db-contents` handler (src/app.py:334): `model_to_dict` of
every stored row. -/
def list_db_contents (db : List Prediction) : List Prediction :=
  db

/-- The observation-level checks, in exactly the order the `/predict`
handler runs them. -/
def checksInOrder : List (List (String × Value) → Option VErr) :=
  [check_valid_column, check_categorical_values, check_age,
   check_capital_gain, check_capital_loss, check_hours_per_week]

/-- First failure of a list of checks; `none` when all pass. -/
def firstFailure (cs : List (List (String × Value) → Option VErr))
    (observation : List (String × Value)) : Option VErr :=
  match cs with
  | [] => none
  | c :: rest =>
    match c observation with
    | some e => some e
    | none => firstFailure rest observation

/-- The validation outcome of a `/predict` body, phrased as the ordered
short-circuit chain of the spec: envelope first, then the observation
checks in order on the `data` payload (non-dict payload raises). -/
def orderedFirstError (body : List (String × Value)) : Except PyExn (Option VErr) :=
  match check_request body with
  | some e => .ok (some e)
  | none =>
    match pyGetD body "data" with
    | .dict observation => .ok (firstFailure checksInOrder observation)
    | _ => .error .attributeError

/-- Spec notion for the numeric checks (claim C4): "an integral value
with no fractional part that is neither NaN nor infinite". A finite
float with denominator 1 is such a value; so are ints and bools. -/
def Value.isIntegralNumber : Value → Bool
  | .int _ => true
  | .bool _ => true
  | .float (.finite q) => q.den == 1
  | _ => false

/-- Numeric magnitude of an integral number, for the spec-side range
conditions of claim C4. -/
def Value.ratVal : Value → ℚ
  | .int n => (n : ℚ)
  | .bool b => if b then 1 else 0
  | .float (.finite q) => q
  | _ => 0

/-- Claim C4 as stated: each numeric check accepts exactly the present,
integral (no fractional part, not NaN, not infinite) values within the
declared range. -/
def specNumericChecksClaim : Prop :=
  ∀ observation : List (String × Value),
    (check_age observation = none ↔
      ((pyGetD observation "age").isNull = false ∧
       (pyGetD observation "age").isIntegralNumber = true ∧
       10 ≤ (pyGetD observation "age").ratVal ∧
       (pyGetD observation "age").ratVal ≤ 100)) ∧
    (check_capital_gain observation = none ↔
      ((pyGetD observation "capital-gain").isNull = false ∧
       (pyGetD observation "capital-gain").isIntegralNumber = true ∧
       0 ≤ (pyGetD observation "capital-gain").ratVal)) ∧
    (check_capital_loss observation = none ↔
      ((pyGetD observation "capital-loss").isNull = false ∧
       (pyGetD observation "capital-loss").isIntegralNumber = true ∧
       0 ≤ (pyGetD observation "capital-loss").ratVal)) ∧
    (check_hours_per_week observation = none ↔
      ((pyGetD observation "hours-per-week").isNull = false ∧
       (pyGetD observation "hours-per-week").isIntegralNumber = true ∧
       0 ≤ (pyGetD observation "hours-per-week").ratVal ∧
       (pyGetD observation "hours-per-week").ratVal ≤ 168))

/-- Claim C3 as stated: the column check passes exactly on the nine
required keys, a payload with missing keys gets the missing-columns
error, and a payload with extra keys gets the unrecognized-columns
error. -/
def specColumnSetClaim : Prop :=
  ∀ observation : List (String × Value),
    (check_valid_column observation = none ↔
      (∀ c, c ∈ pyKeys observation ↔ c ∈ valid_columns)) ∧
    ((∃ c ∈ valid_columns, c ∉ pyKeys observation) →
      ∃ cols, check_valid_column observation = some (.missingColumns cols)) ∧
    ((∃ c ∈ pyKeys observation, c ∉ valid_columns) →
      ∃ cols, check_valid_column observation = some (.unrecognizedColumns cols))

/-- Claim C7 as stated: the envelope check succeeds exactly when the
request holds a non-empty string `observation_id` and a `data` payload. -/
def specEnvelopeClaim : Prop :=
  ∀ body : List (String × Value),
    check_request body = none ↔
      ((∃ s, s ≠ "" ∧ pyGetOpt body "observation_id" = some (.str s)) ∧
       pyHasKey body "data" = true)

/-- Claim C8 as stated: every `/predict` and `/update` request, however
malformed, produces a structured response; no exception escapes. -/
def specAlwaysResponds : Prop :=
  (∀ (pipe : Pipeline) (db : List Prediction) (req : PredictRequest),
    ∃ resp db2, predict pipe db req = .ok (resp, db2)) ∧
  (∀ (db : List Prediction) (obs : List (String × Value)),
    ∃ resp db2, update db obs = .ok (resp, db2))

/-- The worked example observation of the spec (spec §8): a fully valid
nine-field payload. -/
def validObs : List (String × Value) :=
  [("age", .int 39), ("sex", .str "Male"), ("race", .str "White"),
   ("workclass", .str "State-gov"), ("education", .str "Bachelors"),
   ("marital-status", .str "Never-married"), ("capital-gain", .int 2174),
   ("capital-loss", .int 0), ("hours-per-week", .int 40)]

/-- A fully valid `/predict` body around `validObs`. -/
def validBody : List (String × Value) :=
  [("observation_id", .str "a1"), ("data", .dict validObs)]

/-- A second valid body with the same `observation_id` but different
data (age 40), for the duplicate-insert scenario. -/
def validObs2 : List (String × Value) :=
  ("age", .int 40) :: validObs.tail

/-- Body of the resubmission with identifier `a1`. -/
def validBody2 : List (String × Value) :=
  [("observation_id", .str "a1"), ("data", .dict validObs2)]

/-- A concrete stand-in for the opaque artifact. -/
def constPipe : Pipeline := ⟨fun _ => 1 / 2, fun _ => true⟩

/-- `validObs` with `capital-gain` set to the Python boolean `True`. -/
def boolGainObs : List (String × Value) :=
  [("age", .int 39), ("sex", .str "Male"), ("race", .str "White"),
   ("workclass", .str "State-gov"), ("education", .str "Bachelors"),
   ("marital-status", .str "Never-married"), ("capital-gain", .bool true),
   ("capital-loss", .int 0), ("hours-per-week", .int 40)]

/-- `/predict` body around `boolGainObs`. -/
def boolGainBody : List (String × Value) :=
  [("observation_id", .str "b1"), ("data", .dict boolGainObs)]

/-- A body with several defects at once: bad `sex`, bad `age`, negative
`capital-gain`; the first check to fail is the categorical one. -/
def multiBadObs : List (String × Value) :=
  [("age", .int 5), ("sex", .str "X"), ("race", .str "White"),
   ("workclass", .str "State-gov"), ("education", .str "Bachelors"),
   ("marital-status", .str "Never-married"), ("capital-gain", .int (-3)),
   ("capital-loss", .int 0), ("hours-per-week", .int 40)]

/-- `/predict` body around `multiBadObs`. -/
def multiBadBody : List (String × Value) :=
  [("observation_id", .str "m1"), ("data", .dict multiBadObs)]

/-- `validObs` with `age` replaced by the float `40.0`: integral, not
NaN, not infinite, in range — yet not a Python `int` instance. -/
def floatAgeObs : List (String × Value) :=
  ("age", .float (.finite 40)) :: validObs.tail

/-- Payload whose single key is neither missing-free nor extra-free:
`foo` is an extra key and all nine required keys are missing. -/
def bothWrongObs : List (String × Value) :=
  [("foo", .int 1)]

/-- An envelope whose `observation_id` is the empty string. -/
def emptyIdBody : List (String × Value) :=
  [("observation_id", .str ""), ("data", .dict validObs)]

/-- A well-formed `/update` body targeting identifier `a1`. -/
def updateBody : List (String × Value) :=
  [("observation_id", .str "a1"), ("true_class", .int 1)]

/-- If the ordered validation chain reports an error, `/predict` answers
with exactly that error and leaves the database untouched: no later
check runs, nothing is scored or stored. -/
lemma predict_of_firstError (pipe : Pipeline) (db : List Prediction)
    (req : PredictRequest) (e : VErr)
    (h : orderedFirstError req.body = .ok (some e)) :
    predict pipe db req = .ok (.errResp e, db) := by
  unfold orderedFirstError at h
  unfold predict
  cases hr : check_request req.body with
  | some e1 =>
    rw [hr] at h
    simp only [Except.ok.injEq, Option.some.injEq] at h
    subst h
    simp [hr]
  | none =>
    rw [hr] at h
    simp only at h
    cases hd : pyGetD req.body "data" with
    | dict entries =>
      rw [hd] at h
      simp only [Except.ok.injEq] at h
      simp only [checksInOrder, firstFailure] at h
      simp only [hd]
      cases h1 : check_valid_column entries with
      | some e1 => rw [h1] at h; simp_all
      | none =>
        rw [h1] at h
        cases h2 : check_categorical_values entries with
        | some e1 => rw [h2] at h; simp_all
        | none =>
          rw [h2] at h
          cases h3 : check_age entries with
          | some e1 => rw [h3] at h; simp_all
          | none =>
            rw [h3] at h
            cases h4 : check_capital_gain entries with
            | some e1 => rw [h4] at h; simp_all
            | none =>
              rw [h4] at h
              cases h5 : check_capital_loss entries with
              | some e1 => rw [h5] at h; simp_all
              | none =>
                rw [h5] at h
                cases h6 : check_hours_per_week entries with
                | some e1 => rw [h6] at h; simp_all
                | none => rw [h6] at h; simp at h
    | int n => rw [hd] at h; simp at h
    | bool b => rw [hd] at h; simp at h
    | float f => rw [hd] at h; simp at h
    | str s => rw [hd] at h; simp at h
    | null => rw [hd] at h; simp at h

/-- If the ordered validation chain passes, `/predict` scores the
observation and attempts the insert: on a fresh identifier the row is
appended, on a duplicate the database is left unchanged and the
duplicate message is attached to the computed score. -/
lemma predict_of_valid (pipe : Pipeline) (db : List Prediction)
    (req : PredictRequest) (obs : List (String × Value))
    (hd : pyGetD req.body "data" = .dict obs)
    (hv : orderedFirstError req.body = .ok none) :
    predict pipe db req =
      match dbSave db ⟨(pyGetD req.body "observation_id").toFormat, req.raw,
                       pipe.predict_proba obs, none⟩ with
      | .ok db2 => .ok (.okResp (pipe.predictLabel obs) (pipe.predict_proba obs) none, db2)
      | .error _ => .ok (.okResp (pipe.predictLabel obs) (pipe.predict_proba obs)
          (some (dupMsg (pyGetD req.body "observation_id"))), db) := by
  unfold orderedFirstError at hv
  cases hr : check_request req.body with
  | some e1 => rw [hr] at hv; simp at hv
  | none =>
    rw [hr, hd] at hv
    simp only [Except.ok.injEq] at hv
    simp only [checksInOrder, firstFailure] at hv
    unfold predict
    simp only [hr, hd]
    cases h1 : check_valid_column obs with
    | some e1 => rw [h1] at hv; simp_all
    | none =>
      rw [h1] at hv
      cases h2 : check_categorical_values obs with
      | some e1 => rw [h2] at hv; simp_all
      | none =>
        rw [h2] at hv
        cases h3 : check_age obs with
        | some e1 => rw [h3] at hv; simp_all
        | none =>
          rw [h3] at hv
          cases h4 : check_capital_gain obs with
          | some e1 => rw [h4] at hv; simp_all
          | none =>
            rw [h4] at hv
            cases h5 : check_capital_loss obs with
            | some e1 => rw [h5] at hv; simp_all
            | none =>
              rw [h5] at hv
              cases h6 : check_hours_per_week obs with
              | some e1 => rw [h6] at hv; simp_all
              | none => simp [h6]

/-- Claim C2: for every `/predict` request violating several validation rules,
the single error returned is the one of the first failing check in the
order envelope, columns, categorical, age, capital-gain, capital-loss,
hours-per-week (`orderedFirstError` is that ordered short-circuit
chain); no later check runs, no errors are aggregated, and the database
is untouched. -/
theorem predict_first_failing_check_wins (pipe : Pipeline)
    (db : List Prediction) (req : PredictRequest) (e : VErr)
    (h : orderedFirstError req.body = .ok (some e)) :
    predict pipe db req = .ok (.errResp e, db) :=
  predict_of_firstError pipe db req e h

/-- Concrete instance of C2: a payload with a bad categorical value, a
bad age and a negative capital gain reports only the categorical error,
the first check in the order that fails. -/
theorem predict_first_failing_check_wins_witness :
    predict constPipe [] ⟨multiBadBody, "rawM"⟩ =
      .ok (.errResp (.invalidCategorical "sex" (.str "X") ["Male", "Female"]), []) :=
  predict_first_failing_check_wins constPipe [] ⟨multiBadBody, "rawM"⟩ _ rfl

/-- Claim C1: two fully valid `/predict` requests with the same
`observation_id`: the first insert succeeds and appends exactly one row;
the second computes a fresh prediction and probability, returns them
together with the duplicate-identifier message, and leaves the stored
row (its `proba` and `observation`) unchanged. -/
theorem predict_duplicate_id_behaviour (pipe : Pipeline)
    (db : List Prediction) (r1 r2 : PredictRequest) (idv : Value)
    (obs1 obs2 : List (String × Value))
    (hd1 : pyGetD r1.body "data" = .dict obs1)
    (hd2 : pyGetD r2.body "data" = .dict obs2)
    (hv1 : orderedFirstError r1.body = .ok none)
    (hv2 : orderedFirstError r2.body = .ok none)
    (hid1 : pyGetD r1.body "observation_id" = idv)
    (hid2 : pyGetD r2.body "observation_id" = idv)
    (hfresh : db.any (fun q => q.observation_id == idv.toFormat) = false) :
    predict pipe db r1 =
      .ok (.okResp (pipe.predictLabel obs1) (pipe.predict_proba obs1) none,
           db ++ [⟨idv.toFormat, r1.raw, pipe.predict_proba obs1, none⟩]) ∧
    predict pipe (db ++ [⟨idv.toFormat, r1.raw, pipe.predict_proba obs1, none⟩]) r2 =
      .ok (.okResp (pipe.predictLabel obs2) (pipe.predict_proba obs2)
             (some (dupMsg idv)),
           db ++ [⟨idv.toFormat, r1.raw, pipe.predict_proba obs1, none⟩]) := by
  constructor
  · rw [predict_of_valid pipe db r1 obs1 hd1 hv1, hid1]
    simp [dbSave, hfresh]
  · rw [predict_of_valid pipe _ r2 obs2 hd2 hv2, hid2]
    simp [dbSave, List.any_append, hfresh]

/-- Concrete instance of C1: identifier `a1` scored and stored once;
the resubmission with the same identifier and a changed payload gets a
fresh score plus the duplicate message while the ledger still holds the
row of the first request. -/
theorem predict_duplicate_id_behaviour_witness :
    predict constPipe [] ⟨validBody, "raw1"⟩ =
      .ok (.okResp true (1 / 2) none, [⟨"a1", "raw1", 1 / 2, none⟩]) ∧
    predict constPipe [⟨"a1", "raw1", 1 / 2, none⟩] ⟨validBody2, "raw2"⟩ =
      .ok (.okResp true (1 / 2) (some (dupMsg (.str "a1"))),
           [⟨"a1", "raw1", 1 / 2, none⟩]) :=
  predict_duplicate_id_behaviour constPipe [] ⟨validBody, "raw1"⟩
    ⟨validBody2, "raw2"⟩ (.str "a1") validObs validObs2
    rfl rfl rfl rfl rfl rfl rfl

/-- Any row present after a `/predict` call was either already stored or
was created with `true_class` absent: only `/update` ever sets a label. -/
lemma predict_creates_unlabelled (pipe : Pipeline) (db : List Prediction)
    (req : PredictRequest) (resp : PredictResponse) (db2 : List Prediction)
    (h : predict pipe db req = .ok (resp, db2)) :
    ∀ r ∈ db2, r ∈ db ∨ r.true_class = none := by
  unfold predict at h
  dsimp only [] at h
  cases hr : check_request req.body with
  | some e => rw [hr] at h; simp_all
  | none =>
    rw [hr] at h
    dsimp only [] at h
    cases hd : pyGetD req.body "data" with
    | dict entries =>
      rw [hd] at h
      dsimp only [] at h
      cases h1 : check_valid_column entries with
      | some e => rw [h1] at h; simp_all
      | none =>
        rw [h1] at h
        dsimp only [] at h
        cases h2 : check_categorical_values entries with
        | some e => rw [h2] at h; simp_all
        | none =>
          rw [h2] at h
          dsimp only [] at h
          cases h3 : check_age entries with
          | some e => rw [h3] at h; simp_all
          | none =>
            rw [h3] at h
            dsimp only [] at h
            cases h4 : check_capital_gain entries with
            | some e => rw [h4] at h; simp_all
            | none =>
              rw [h4] at h
              dsimp only [] at h
              cases h5 : check_capital_loss entries with
              | some e => rw [h5] at h; simp_all
              | none =>
                rw [h5] at h
                dsimp only [] at h
                cases h6 : check_hours_per_week entries with
                | some e => rw [h6] at h; simp_all
                | none =>
                  rw [h6] at h
                  dsimp only [] at h
                  simp only [dbSave] at h
                  by_cases hdup :
                      db.any (fun q => q.observation_id ==
                        ((pyGetD req.body "observation_id").toFormat : String)) = true
                  · simp only [hdup, if_true] at h
                    simp only [Except.ok.injEq, Prod.mk.injEq] at h
                    intro r hm
                    left
                    rw [← h.2] at hm
                    exact hm
                  · simp only [Bool.not_eq_true] at hdup
                    simp only [hdup, Bool.false_eq_true, if_false] at h
                    simp only [Except.ok.injEq, Prod.mk.injEq] at h
                    intro r hm
                    rw [← h.2] at hm
                    rcases List.mem_append.mp hm with hl | hr2
                    · exact Or.inl hl
                    · right
                      rcases List.mem_singleton.mp hr2 with rfl
                      rfl
    | int n => rw [hd] at h; simp_all
    | bool b => rw [hd] at h; simp_all
    | float f => rw [hd] at h; simp_all
    | str s => rw [hd] at h; simp_all
    | null => rw [hd] at h; simp_all

/-- Claim C9: a successful `/predict` stores exactly one new row whose
`observation` is the raw request body verbatim, whose `proba` is the
probability computed at scoring time, and whose `true_class` is absent;
and no `/predict` call ever creates a row with `true_class` set, so a
label can only appear through the update operation. -/
theorem predict_record_creation (pipe : Pipeline) (db : List Prediction)
    (req : PredictRequest) (obs : List (String × Value)) (idv : Value)
    (hd : pyGetD req.body "data" = .dict obs)
    (hv : orderedFirstError req.body = .ok none)
    (hid : pyGetD req.body "observation_id" = idv)
    (hfresh : db.any (fun q => q.observation_id == idv.toFormat) = false) :
    predict pipe db req =
      .ok (.okResp (pipe.predictLabel obs) (pipe.predict_proba obs) none,
           db ++ [⟨idv.toFormat, req.raw, pipe.predict_proba obs, none⟩]) ∧
    (∀ (pipe2 : Pipeline) (db0 : List Prediction) (req2 : PredictRequest)
       (resp : PredictResponse) (out : List Prediction),
       predict pipe2 db0 req2 = .ok (resp, out) →
       ∀ r ∈ out, r ∈ db0 ∨ r.true_class = none) := by
  constructor
  · rw [predict_of_valid pipe db req obs hd hv, hid]
    simp [dbSave, hfresh]
  · exact fun pipe2 db0 req2 resp out h =>
      predict_creates_unlabelled pipe2 db0 req2 resp out h

/-- Concrete instance of C9: the worked example of the spec is stored with
the raw body, the computed probability and no label. -/
theorem predict_record_creation_witness :
    predict constPipe [] ⟨validBody, "rawbytes"⟩ =
      .ok (.okResp true (1 / 2) none, [⟨"a1", "rawbytes", 1 / 2, none⟩]) :=
  (predict_record_creation constPipe [] ⟨validBody, "rawbytes"⟩ validObs
    (.str "a1") rfl rfl rfl rfl).1

/-- Claim C10: `isinstance(_, int)` holds of Python booleans, so the numeric
type checks accept them: a boolean `capital-gain`, `capital-loss` or
`hours-per-week` passes its check outright (True is 1, False is 0), a
boolean `age` fails only the range test (not the type test), and an
otherwise-valid observation with `capital-gain = True` passes the whole
chain, is scored and is persisted. -/
theorem bool_passes_integer_type_check :
    (∀ b : Bool, Value.isInstInt (.bool b) = true) ∧
    (∀ (b : Bool) (observation : List (String × Value)),
       pyGetD observation "capital-gain" = .bool b →
       check_capital_gain observation = none) ∧
    (∀ (b : Bool) (observation : List (String × Value)),
       pyGetD observation "capital-loss" = .bool b →
       check_capital_loss observation = none) ∧
    (∀ (b : Bool) (observation : List (String × Value)),
       pyGetD observation "hours-per-week" = .bool b →
       check_hours_per_week observation = none) ∧
    (∀ (b : Bool) (observation : List (String × Value)),
       pyGetD observation "age" = .bool b →
       check_age observation = some (.ageOutOfRange (.bool b))) ∧
    (∀ pipe : Pipeline,
       predict pipe [] ⟨boolGainBody, "rawB"⟩ =
         .ok (.okResp (pipe.predictLabel boolGainObs)
                (pipe.predict_proba boolGainObs) none,
              [⟨"b1", "rawB", pipe.predict_proba boolGainObs, none⟩])) := by
  refine ⟨fun b => rfl, ?_, ?_, ?_, ?_, fun pipe => rfl⟩
  · intro b observation h
    unfold check_capital_gain
    rw [h]
    cases b <;> rfl
  · intro b observation h
    unfold check_capital_loss
    rw [h]
    cases b <;> rfl
  · intro b observation h
    unfold check_hours_per_week
    rw [h]
    cases b <;> rfl
  · intro b observation h
    unfold check_age
    rw [h]
    cases b <;> rfl

/-- Concrete instance of C10: a True `capital-gain` passes its check in
the otherwise-valid observation, and a True `age` draws the range error
(value 1), not the type error. -/
theorem bool_passes_integer_type_check_witness :
    check_capital_gain boolGainObs = none ∧
    check_age [("age", Value.bool true)] =
      some (.ageOutOfRange (.bool true)) :=
  ⟨bool_passes_integer_type_check.2.1 true boolGainObs rfl,
   bool_passes_integer_type_check.2.2.2.2.1 true [("age", Value.bool true)] rfl⟩

/-- Claim C5: a well-formed `/update` request. On a stored identifier the
`true_class` of the matched row is set to the submitted value, the row is
persisted in place, and the full updated record is returned; on an
unknown identifier the not-exists error is returned, no row changes,
and `/list-db-contents` is unaffected. -/
theorem update_label_behaviour (db : List Prediction)
    (obs : List (String × Value)) (idv tcv : Value)
    (hid : pyGetOpt obs "observation_id" = some idv)
    (htc : pyGetOpt obs "true_class" = some tcv) :
    (∀ p, db.find? (fun q => q.observation_id == idv.toFormat) = some p →
       update db obs = .ok (.record { p with true_class := some tcv },
         replaceFirst db (fun q => q.observation_id == idv.toFormat)
           { p with true_class := some tcv })) ∧
    (db.find? (fun q => q.observation_id == idv.toFormat) = none →
       update db obs = .ok (.errResp (notExistMsg idv), db) ∧
       list_db_contents db = db) := by
  constructor
  · intro p hp
    simp [update, hid, hp, htc]
  · intro hp
    refine ⟨by simp [update, hid, hp], rfl⟩

/-- Concrete instance of C5: updating `a1` in a one-row ledger sets its
label to 1 and returns the full record; updating `a1` in an empty
ledger reports the not-exists error and the ledger stays empty. -/
theorem update_label_behaviour_witness :
    update [⟨"a1", "raw1", 1 / 2, none⟩] updateBody =
      .ok (.record ⟨"a1", "raw1", 1 / 2, some (.int 1)⟩,
           [⟨"a1", "raw1", 1 / 2, some (.int 1)⟩]) ∧
    update [] updateBody = .ok (.errResp (notExistMsg (.str "a1")), []) :=
  ⟨(update_label_behaviour [⟨"a1", "raw1", 1 / 2, none⟩] updateBody
      (.str "a1") (.int 1) rfl rfl).1 ⟨"a1", "raw1", 1 / 2, none⟩ rfl,
   ((update_label_behaviour [] updateBody
      (.str "a1") (.int 1) rfl rfl).2 rfl).1⟩

/-- The missing-columns filter is empty exactly when every required
column is among the payload keys. -/
lemma missing_filter_nil_iff (observation : List (String × Value)) :
    valid_columns.filter (fun c => ¬ (pyKeys observation).contains c) = [] ↔
      ∀ c ∈ valid_columns, c ∈ pyKeys observation := by
  rw [List.filter_eq_nil_iff]
  constructor
  · intro h c hc
    have := h c hc
    simpa [List.elem_iff] using this
  · intro h c hc
    simpa [List.elem_iff] using h c hc

/-- The extra-columns filter is empty exactly when every payload key is
a required column. -/
lemma extra_filter_nil_iff (observation : List (String × Value)) :
    (pyKeys observation).filter (fun k => ¬ valid_columns.contains k) = [] ↔
      ∀ c ∈ pyKeys observation, c ∈ valid_columns := by
  rw [List.filter_eq_nil_iff]
  constructor
  · intro h c hc
    have := h c hc
    simpa [List.elem_iff] using this
  · intro h c hc
    simpa [List.elem_iff] using h c hc

/-- A key set that coincides with the nine required columns has
cardinality nine. -/
lemma pyKeys_length_of_iff (observation : List (String × Value))
    (h : ∀ c, c ∈ pyKeys observation ↔ c ∈ valid_columns) :
    (pyKeys observation).length = 9 := by
  have hperm : (pyKeys observation).Perm valid_columns :=
    (List.perm_ext_iff_of_nodup (List.nodup_dedup _) (by decide)).mpr h
  simpa using hperm.length_eq

/-- The column check passes exactly when the key set of the payload equals
the nine required columns. -/
lemma check_valid_column_none_iff (observation : List (String × Value)) :
    check_valid_column observation = none ↔
      ∀ c, c ∈ pyKeys observation ↔ c ∈ valid_columns := by
  unfold check_valid_column
  dsimp only []
  split_ifs with h1 h2 h3
  · constructor
    · intro h
      cases h
    · intro h
      exact absurd ((missing_filter_nil_iff observation).mpr
        (fun c hc => (h c).mpr hc)) h1
  · constructor
    · intro h
      cases h
    · intro h
      exact absurd ((extra_filter_nil_iff observation).mpr
        (fun c hc => (h c).mp hc)) h2
  · constructor
    · intro h
      cases h
    · intro h
      exact absurd (pyKeys_length_of_iff observation h) h3
  · constructor
    · intro _ c
      push_neg at h1 h2
      have hmiss := (missing_filter_nil_iff observation).mp h1
      have hext := (extra_filter_nil_iff observation).mp h2
      exact ⟨fun hc => hext c hc, fun hc => hmiss c hc⟩
    · intro _
      rfl

/-- With at least one required column absent, the column check reports
the missing-columns error. -/
lemma check_valid_column_missing (observation : List (String × Value))
    (h : ∃ c ∈ valid_columns, c ∉ pyKeys observation) :
    check_valid_column observation =
      some (.missingColumns
        (valid_columns.filter (fun c => ¬ (pyKeys observation).contains c))) := by
  unfold check_valid_column
  dsimp only []
  have hne : valid_columns.filter (fun c => ¬ (pyKeys observation).contains c) ≠ [] := by
    intro hnil
    obtain ⟨c, hc, hnc⟩ := h
    exact hnc ((missing_filter_nil_iff observation).mp hnil c hc)
  rw [if_pos hne]

/-- With all required columns present and at least one extra key, the
column check reports the unrecognized-columns error. -/
lemma check_valid_column_extra (observation : List (String × Value))
    (hmiss : ∀ c ∈ valid_columns, c ∈ pyKeys observation)
    (h : ∃ c ∈ pyKeys observation, c ∉ valid_columns) :
    check_valid_column observation =
      some (.unrecognizedColumns
        ((pyKeys observation).filter (fun k => ¬ valid_columns.contains k))) := by
  unfold check_valid_column
  dsimp only []
  have h1 : valid_columns.filter (fun c => ¬ (pyKeys observation).contains c) = [] :=
    (missing_filter_nil_iff observation).mpr hmiss
  have hne : (pyKeys observation).filter (fun k => ¬ valid_columns.contains k) ≠ [] := by
    intro hnil
    obtain ⟨c, hc, hnc⟩ := h
    exact hnc ((extra_filter_nil_iff observation).mp hnil c hc)
  rw [h1]
  simp only [ne_eq, not_true_eq_false, if_false, if_neg]
  rw [if_pos hne]

/-- Claim C3 counterexample: on the payload whose only key is the extra `foo`
(so required keys are also missing), the check reports the
missing-columns error, not the unrecognized-columns error the claim
promises for a payload with extra keys. -/
theorem column_check_claim_refuted : ¬ specColumnSetClaim := by
  intro h
  obtain ⟨-, -, hextra⟩ := h bothWrongObs
  obtain ⟨cols, hc⟩ := hextra ⟨"foo", by decide, by decide⟩
  rw [show check_valid_column bothWrongObs =
        some (.missingColumns valid_columns) from rfl] at hc
  exact VErr.noConfusion (Option.some.inj hc)

/-- Claim C3 amended: the column check passes iff the key set equals exactly
the nine required keys; missing keys always win and give the
missing-columns error (even when extra keys are also present); extra
keys give the unrecognized-columns error only when no required key is
missing; and any column-check failure short-circuits `/predict` before
any domain check, leaving the database untouched. -/
theorem column_check_amended :
    ∀ (observation : List (String × Value)) (pipe : Pipeline)
      (db : List Prediction) (req : PredictRequest) (e : VErr),
    (check_valid_column observation = none ↔
       ∀ c, c ∈ pyKeys observation ↔ c ∈ valid_columns) ∧
    ((∃ c ∈ valid_columns, c ∉ pyKeys observation) →
       check_valid_column observation =
         some (.missingColumns
           (valid_columns.filter (fun c => ¬ (pyKeys observation).contains c)))) ∧
    ((∀ c ∈ valid_columns, c ∈ pyKeys observation) →
     (∃ c ∈ pyKeys observation, c ∉ valid_columns) →
       check_valid_column observation =
         some (.unrecognizedColumns
           ((pyKeys observation).filter (fun k => ¬ valid_columns.contains k)))) ∧
    (pyGetD req.body "data" = .dict observation →
     check_request req.body = none →
     check_valid_column observation = some e →
     predict pipe db req = .ok (.errResp e, db)) := by
  intro observation pipe db req e
  refine ⟨check_valid_column_none_iff observation,
          check_valid_column_missing observation,
          check_valid_column_extra observation, ?_⟩
  intro hd hr hcol
  unfold predict
  simp [hr, hd, hcol]

/-- Concrete instance of C3 (amended): the one-key payload `foo` is
reported with the missing-columns error listing all nine required
columns. -/
theorem column_check_amended_witness :
    check_valid_column bothWrongObs = some (.missingColumns valid_columns) :=
  (column_check_amended bothWrongObs constPipe [] ⟨[], ""⟩
      .missingObservationId).2.1 ⟨"age", by decide, by decide⟩

/-- `check_age` passes exactly on present Python `int` instances in
`[10, 100]`. -/
lemma check_age_none_iff (observation : List (String × Value)) :
    check_age observation = none ↔
      ((pyGetD observation "age").isNull = false ∧
       (pyGetD observation "age").isInstInt = true ∧
       10 ≤ (pyGetD observation "age").asInt ∧
       (pyGetD observation "age").asInt ≤ 100) := by
  unfold check_age
  cases hv : pyGetD observation "age" with
  | null => simp [Value.isNull]
  | int n =>
    simp [Value.isNull, Value.isInstInt, Value.asInt, npIsnan, npIsinf]
  | bool b =>
    cases b <;> simp [Value.isNull, Value.isInstInt, Value.asInt, npIsnan, npIsinf]
  | float f =>
    cases f <;> simp [Value.isNull, Value.isInstInt, npIsnan, npIsinf]
  | str s => simp [Value.isNull, Value.isInstInt, npIsnan, npIsinf]
  | dict entries => simp [Value.isNull, Value.isInstInt, npIsnan, npIsinf]

/-- `check_capital_gain` passes exactly on present non-negative `int`
instances. -/
lemma check_capital_gain_none_iff (observation : List (String × Value)) :
    check_capital_gain observation = none ↔
      ((pyGetD observation "capital-gain").isNull = false ∧
       (pyGetD observation "capital-gain").isInstInt = true ∧
       0 ≤ (pyGetD observation "capital-gain").asInt) := by
  unfold check_capital_gain
  cases hv : pyGetD observation "capital-gain" with
  | null => simp [Value.isNull]
  | int n => simp [Value.isNull, Value.isInstInt, Value.asInt]
  | bool b => cases b <;> simp [Value.isNull, Value.isInstInt, Value.asInt]
  | float f => cases f <;> simp [Value.isNull, Value.isInstInt]
  | str s => simp [Value.isNull, Value.isInstInt]
  | dict entries => simp [Value.isNull, Value.isInstInt]

/-- `check_capital_loss` passes exactly on present non-negative `int`
instances. -/
lemma check_capital_loss_none_iff (observation : List (String × Value)) :
    check_capital_loss observation = none ↔
      ((pyGetD observation "capital-loss").isNull = false ∧
       (pyGetD observation "capital-loss").isInstInt = true ∧
       0 ≤ (pyGetD observation "capital-loss").asInt) := by
  unfold check_capital_loss
  cases hv : pyGetD observation "capital-loss" with
  | null => simp [Value.isNull]
  | int n => simp [Value.isNull, Value.isInstInt, Value.asInt]
  | bool b => cases b <;> simp [Value.isNull, Value.isInstInt, Value.asInt]
  | float f => cases f <;> simp [Value.isNull, Value.isInstInt]
  | str s => simp [Value.isNull, Value.isInstInt]
  | dict entries => simp [Value.isNull, Value.isInstInt]

/-- `check_hours_per_week` passes exactly on present `int` instances in
`[0, 168]`. -/
lemma check_hours_per_week_none_iff (observation : List (String × Value)) :
    check_hours_per_week observation = none ↔
      ((pyGetD observation "hours-per-week").isNull = false ∧
       (pyGetD observation "hours-per-week").isInstInt = true ∧
       0 ≤ (pyGetD observation "hours-per-week").asInt ∧
       (pyGetD observation "hours-per-week").asInt ≤ 168) := by
  unfold check_hours_per_week
  cases hv : pyGetD observation "hours-per-week" with
  | null => simp [Value.isNull]
  | int n => simp [Value.isNull, Value.isInstInt, Value.asInt]
  | bool b => cases b <;> simp [Value.isNull, Value.isInstInt, Value.asInt]
  | float f => cases f <;> simp [Value.isNull, Value.isInstInt]
  | str s => simp [Value.isNull, Value.isInstInt]
  | dict entries => simp [Value.isNull, Value.isInstInt]

lemma check_age_range_error (observation : List (String × Value))
    (h1 : (pyGetD observation "age").isInstInt = true)
    (h2 : (pyGetD observation "age").asInt < 10 ∨
          100 < (pyGetD observation "age").asInt) :
    check_age observation = some (.ageOutOfRange (pyGetD observation "age")) := by
  unfold check_age
  cases hv : pyGetD observation "age" with
  | int n =>
    rw [hv] at h2
    simp only [Value.asInt] at h2
    simp [Value.isNull, Value.isInstInt, npIsnan, npIsinf, Value.asInt]
    omega
  | bool b =>
    rw [hv] at h2
    cases b <;> simp [Value.isNull, Value.isInstInt, npIsnan, npIsinf, Value.asInt]
  | null => rw [hv] at h1; cases h1
  | float f => rw [hv] at h1; cases h1
  | str s => rw [hv] at h1; cases h1
  | dict entries => rw [hv] at h1; cases h1

lemma check_capital_gain_range_error (observation : List (String × Value))
    (h1 : (pyGetD observation "capital-gain").isInstInt = true)
    (h2 : (pyGetD observation "capital-gain").asInt < 0) :
    check_capital_gain observation =
      some (.capitalGainNegative (pyGetD observation "capital-gain")) := by
  unfold check_capital_gain
  cases hv : pyGetD observation "capital-gain" with
  | int n =>
    rw [hv] at h2
    simp only [Value.asInt] at h2
    simp [Value.isNull, Value.isInstInt, Value.asInt]
    omega
  | bool b =>
    rw [hv] at h2
    cases b <;> simp only [Value.asInt] at h2 <;> omega
  | null => rw [hv] at h1; cases h1
  | float f => rw [hv] at h1; cases h1
  | str s => rw [hv] at h1; cases h1
  | dict entries => rw [hv] at h1; cases h1

lemma check_capital_loss_range_error (observation : List (String × Value))
    (h1 : (pyGetD observation "capital-loss").isInstInt = true)
    (h2 : (pyGetD observation "capital-loss").asInt < 0) :
    check_capital_loss observation =
      some (.capitalLossNegative (pyGetD observation "capital-loss")) := by
  unfold check_capital_loss
  cases hv : pyGetD observation "capital-loss" with
  | int n =>
    rw [hv] at h2
    simp only [Value.asInt] at h2
    simp [Value.isNull, Value.isInstInt, Value.asInt]
    omega
  | bool b =>
    rw [hv] at h2
    cases b <;> simp only [Value.asInt] at h2 <;> omega
  | null => rw [hv] at h1; cases h1
  | float f => rw [hv] at h1; cases h1
  | str s => rw [hv] at h1; cases h1
  | dict entries => rw [hv] at h1; cases h1

lemma check_hours_per_week_range_error (observation : List (String × Value))
    (h1 : (pyGetD observation "hours-per-week").isInstInt = true)
    (h2 : (pyGetD observation "hours-per-week").asInt < 0 ∨
          168 < (pyGetD observation "hours-per-week").asInt) :
    check_hours_per_week observation =
      some (.hoursOutOfRange (pyGetD observation "hours-per-week")) := by
  unfold check_hours_per_week
  cases hv : pyGetD observation "hours-per-week" with
  | int n =>
    rw [hv] at h2
    simp only [Value.asInt] at h2
    simp [Value.isNull, Value.isInstInt, Value.asInt]
    omega
  | bool b =>
    rw [hv] at h2
    cases b <;> simp only [Value.asInt] at h2 <;> omega
  | null => rw [hv] at h1; cases h1
  | float f => rw [hv] at h1; cases h1
  | str s => rw [hv] at h1; cases h1
  | dict entries => rw [hv] at h1; cases h1

/-- Claim C4 counterexample: the float `40.0` for `age` is present, integral,
has no fractional part, is neither NaN nor infinite, and lies in
`[10, 100]`, yet `check_age` rejects it (`isinstance(_, int)` is false
for floats), refuting the claimed acceptance condition. -/
theorem numeric_checks_claim_refuted : ¬ specNumericChecksClaim := by
  intro h
  have hage := (h floatAgeObs).1
  rw [show check_age floatAgeObs = some (.notAnInteger "age") from rfl] at hage
  have hr : (pyGetD floatAgeObs "age").isNull = false ∧
      (pyGetD floatAgeObs "age").isIntegralNumber = true ∧
      10 ≤ (pyGetD floatAgeObs "age").ratVal ∧
      (pyGetD floatAgeObs "age").ratVal ≤ 100 := by
    refine ⟨rfl, rfl, by norm_num [floatAgeObs, pyGetD, pyGetOpt, Value.ratVal],
            by norm_num [floatAgeObs, pyGetD, pyGetOpt, Value.ratVal]⟩
  exact Option.noConfusion (hage.mpr hr)

/-- Claim C4 amended: each numeric check accepts a value exactly when it is
present and a Python `int` instance (booleans included; integral floats
are rejected by the type test) within its range (age 10–100,
capital-gain and capital-loss ≥ 0, hours-per-week 0–168); a range
violation yields the error naming the field and the offending value
(the type violation names only the field). -/
theorem numeric_checks_amended :
    ∀ observation : List (String × Value),
    (check_age observation = none ↔
      ((pyGetD observation "age").isNull = false ∧
       (pyGetD observation "age").isInstInt = true ∧
       10 ≤ (pyGetD observation "age").asInt ∧
       (pyGetD observation "age").asInt ≤ 100)) ∧
    (check_capital_gain observation = none ↔
      ((pyGetD observation "capital-gain").isNull = false ∧
       (pyGetD observation "capital-gain").isInstInt = true ∧
       0 ≤ (pyGetD observation "capital-gain").asInt)) ∧
    (check_capital_loss observation = none ↔
      ((pyGetD observation "capital-loss").isNull = false ∧
       (pyGetD observation "capital-loss").isInstInt = true ∧
       0 ≤ (pyGetD observation "capital-loss").asInt)) ∧
    (check_hours_per_week observation = none ↔
      ((pyGetD observation "hours-per-week").isNull = false ∧
       (pyGetD observation "hours-per-week").isInstInt = true ∧
       0 ≤ (pyGetD observation "hours-per-week").asInt ∧
       (pyGetD observation "hours-per-week").asInt ≤ 168)) ∧
    ((pyGetD observation "age").isInstInt = true →
     ((pyGetD observation "age").asInt < 10 ∨
      100 < (pyGetD observation "age").asInt) →
     check_age observation = some (.ageOutOfRange (pyGetD observation "age"))) ∧
    ((pyGetD observation "capital-gain").isInstInt = true →
     (pyGetD observation "capital-gain").asInt < 0 →
     check_capital_gain observation =
       some (.capitalGainNegative (pyGetD observation "capital-gain"))) ∧
    ((pyGetD observation "capital-loss").isInstInt = true →
     (pyGetD observation "capital-loss").asInt < 0 →
     check_capital_loss observation =
       some (.capitalLossNegative (pyGetD observation "capital-loss"))) ∧
    ((pyGetD observation "hours-per-week").isInstInt = true →
     ((pyGetD observation "hours-per-week").asInt < 0 ∨
      168 < (pyGetD observation "hours-per-week").asInt) →
     check_hours_per_week observation =
       some (.hoursOutOfRange (pyGetD observation "hours-per-week"))) :=
  fun observation =>
    ⟨check_age_none_iff observation,
     check_capital_gain_none_iff observation,
     check_capital_loss_none_iff observation,
     check_hours_per_week_none_iff observation,
     check_age_range_error observation,
     check_capital_gain_range_error observation,
     check_capital_loss_range_error observation,
     check_hours_per_week_range_error observation⟩

/-- Concrete instance of C4 (amended): the example `age = 5` of the spec is
rejected with the out-of-range error naming the field and the value 5. -/
theorem numeric_checks_amended_witness :
    check_age [("age", Value.int 5)] = some (.ageOutOfRange (.int 5)) :=
  (numeric_checks_amended [("age", Value.int 5)]).2.2.2.2.1 rfl
    (Or.inl (by decide))

/-- A key is in the dict exactly when it is among the payload keys. -/
lemma pyHasKey_iff_mem (observation : List (String × Value)) (k : String) :
    pyHasKey observation k = true ↔ k ∈ pyKeys observation := by
  simp [pyHasKey, pyKeys, List.any_eq_true, List.mem_dedup, List.mem_map,
        beq_iff_eq]

/-- When every field of the category map is a key of the observation,
the categorical loop reports exactly the first field whose value is
outside its category list, with the offending value and the allowed
list; it passes when no such field exists. -/
lemma checkCatsAux_eq_find (m : List (String × List String))
    (observation : List (String × Value))
    (hpres : ∀ p ∈ m, pyHasKey observation p.1 = true) :
    checkCatsAux m observation =
      match m.find? (fun p => ¬ (pyGetD observation p.1).inStrList p.2) with
      | some p => some (.invalidCategorical p.1 (pyGetD observation p.1) p.2)
      | none => none := by
  induction m with
  | nil => rfl
  | cons a rest ih =>
    obtain ⟨key, cats⟩ := a
    have hk : pyHasKey observation key = true :=
      hpres _ (List.mem_cons_self _ _)
    unfold checkCatsAux
    rw [if_pos hk]
    by_cases hb : (pyGetD observation key).inStrList cats = true
    · rw [if_neg (by simp [hb])]
      rw [ih (fun p hp => hpres p (List.mem_cons_of_mem _ hp))]
      simp [List.find?_cons, hb]
    · rw [if_pos (by simp [hb])]
      simp only [Bool.not_eq_true] at hb
      simp [List.find?_cons, hb]

/-- Claim C6: once the column-set check has passed (so all five categorical
fields are present), the categorical check succeeds iff each of `sex`,
`race`, `workclass`, `education` and `marital-status` holds a value in
its enumerated list, and the first violation (in map order) yields the
error naming the field, the offending value, and the full allowed list
for that field. -/
theorem categorical_check_behaviour (observation : List (String × Value))
    (hcol : check_valid_column observation = none) :
    (check_categorical_values observation = none ↔
       ∀ p ∈ valid_category_map, (pyGetD observation p.1).inStrList p.2 = true) ∧
    (∀ f cats,
       valid_category_map.find?
         (fun p => ¬ (pyGetD observation p.1).inStrList p.2) = some (f, cats) →
       check_categorical_values observation =
         some (.invalidCategorical f (pyGetD observation f) cats)) := by
  have hmem := (check_valid_column_none_iff observation).mp hcol
  have hpres : ∀ p ∈ valid_category_map, pyHasKey observation p.1 = true := by
    intro p hp
    rw [pyHasKey_iff_mem]
    apply (hmem p.1).mpr
    fin_cases hp <;> decide
  have hre := checkCatsAux_eq_find valid_category_map observation hpres
  rw [check_categorical_values] at *
  constructor
  · rw [hre]
    cases hf : valid_category_map.find?
        (fun p => ¬ (pyGetD observation p.1).inStrList p.2) with
    | some p =>
      simp only [hf]
      constructor
      · intro hc
        cases hc
      · intro hall
        have := List.find?_some hf
        have hm := List.mem_of_find?_eq_some hf
        simp only [decide_not, Bool.not_eq_true', decide_eq_false_iff_not] at this
        exact absurd (hall p hm) this
    | none =>
      simp only [hf]
      constructor
      · intro _ p hp
        have := List.find?_eq_none.mp hf p hp
        simpa using this
      · intro _
        trivial
  · intro f cats hfc
    rw [hre, hfc]

/-- Concrete instance of C6: with all nine columns present and
`sex = "X"`, the check reports the invalid-value error naming `sex`,
the value `X`, and the allowed list `Male`, `Female`. -/
theorem categorical_check_behaviour_witness :
    check_categorical_values multiBadObs =
      some (.invalidCategorical "sex" (.str "X") ["Male", "Female"]) :=
  (categorical_check_behaviour multiBadObs rfl).2 "sex" ["Male", "Female"] rfl

/-- Claim C7 counterexample: a request whose `observation_id` is the empty
string passes the envelope check, although the claim requires a
non-empty identifier for success. -/
theorem envelope_claim_refuted : ¬ specEnvelopeClaim := by
  intro h
  obtain ⟨⟨s, hs, heq⟩, -⟩ := (h emptyIdBody).mp rfl
  have h2 : Value.str "" = Value.str s := by
    have h0 : pyGetOpt emptyIdBody "observation_id" = some (.str "") := rfl
    rw [h0] at heq
    exact Option.some.inj heq
  exact hs (Value.str.inj h2).symm

/-- Claim C7 amended: the envelope check succeeds iff the request has both an
`observation_id` key and a `data` key — the identifier value is not
inspected (it may even be empty or null); a missing `observation_id`
gives its missing-field error, a missing `data` (with the identifier
present) gives its missing-field error, and any envelope failure
short-circuits `/predict`, leaving the database untouched. -/
theorem envelope_check_amended :
    ∀ (body : List (String × Value)) (pipe : Pipeline) (db : List Prediction)
      (req : PredictRequest) (e : VErr),
    (check_request body = none ↔
       pyHasKey body "observation_id" = true ∧ pyHasKey body "data" = true) ∧
    (pyHasKey body "observation_id" = false →
       check_request body = some .missingObservationId) ∧
    (pyHasKey body "observation_id" = true → pyHasKey body "data" = false →
       check_request body = some .missingData) ∧
    (check_request req.body = some e →
       predict pipe db req = .ok (.errResp e, db)) := by
  intro body pipe db req e
  refine ⟨?_, ?_, ?_, ?_⟩
  · unfold check_request
    split_ifs with h1 h2 <;> simp_all
  · intro h1
    unfold check_request
    rw [if_pos (by simp [h1])]
  · intro h1 h2
    unfold check_request
    rw [if_neg (by simp [h1]), if_pos (by simp [h2])]
  · intro h
    unfold predict
    simp [h]

/-- Concrete instance of C7 (amended): a body with only a `data` key is
rejected with the missing-`observation_id` error. -/
theorem envelope_check_amended_witness :
    check_request [("data", Value.dict validObs)] = some .missingObservationId :=
  (envelope_check_amended [("data", .dict validObs)] constPipe [] ⟨[], ""⟩
      .missingObservationId).2.1 rfl

/-- A present key yields a value under subscripting. -/
lemma pyHasKey_getOpt (d : List (String × Value)) (k : String)
    (h : pyHasKey d k = true) : ∃ v, pyGetOpt d k = some v := by
  unfold pyHasKey at h
  unfold pyGetOpt
  obtain ⟨p, hp, he⟩ := List.any_eq_true.mp h
  have hs : (d.find? (fun p => p.1 == k)).isSome := by
    rw [List.find?_isSome]
    exact ⟨p, hp, he⟩
  obtain ⟨q, hq⟩ := Option.isSome_iff_exists.mp hs
  exact ⟨q.2, by rw [hq]; rfl⟩

/-- Claim C8 counterexample: the `/update` handler applied to the empty JSON
object raises an uncaught `KeyError` for `observation_id` instead of
answering with a structured error payload. -/
theorem always_responds_refuted : ¬ specAlwaysResponds := by
  intro h
  obtain ⟨resp, db2, heq⟩ := h.2 [] []
  rw [show update [] [] = Except.error (.keyError "observation_id") from rfl] at heq
  cases heq

/-- Claim C8 amended: `/predict` answers every request whose `data` value (if
present) is a mapping — validation and duplicate-insert failures all
become structured payloads; `/update` answers every request carrying
both `observation_id` and `true_class` keys, converting an unknown
identifier into a structured error. (A `/update` request missing either
key, or a `/predict` request whose `data` is not a mapping, raises an
uncaught exception.) -/
theorem handlers_respond_amended :
    (∀ (pipe : Pipeline) (db : List Prediction) (req : PredictRequest),
       (∀ v, pyGetOpt req.body "data" = some v → ∃ entries, v = .dict entries) →
       ∃ resp db2, predict pipe db req = .ok (resp, db2)) ∧
    (∀ (db : List Prediction) (obs : List (String × Value)) (idv tcv : Value),
       pyGetOpt obs "observation_id" = some idv →
       pyGetOpt obs "true_class" = some tcv →
       ∃ resp db2, update db obs = .ok (resp, db2)) := by
  constructor
  · intro pipe db req hdata
    unfold predict
    dsimp only []
    cases hr : check_request req.body with
    | some e => exact ⟨_, _, rfl⟩
    | none =>
      have hk : pyHasKey req.body "data" = true := by
        unfold check_request at hr
        split_ifs at hr with a b
        exact b
      obtain ⟨v, hv⟩ := pyHasKey_getOpt _ _ hk
      obtain ⟨entries, rfl⟩ := hdata v hv
      have hd : pyGetD req.body "data" = .dict entries := by
        unfold pyGetD
        rw [hv]
        rfl
      rw [hd]
      dsimp only []
      cases h1 : check_valid_column entries with
      | some e => exact ⟨_, _, rfl⟩
      | none =>
        cases h2 : check_categorical_values entries with
        | some e => exact ⟨_, _, rfl⟩
        | none =>
          cases h3 : check_age entries with
          | some e => exact ⟨_, _, rfl⟩
          | none =>
            cases h4 : check_capital_gain entries with
            | some e => exact ⟨_, _, rfl⟩
            | none =>
              cases h5 : check_capital_loss entries with
              | some e => exact ⟨_, _, rfl⟩
              | none =>
                cases h6 : check_hours_per_week entries with
                | some e => exact ⟨_, _, rfl⟩
                | none =>
                  cases hs : dbSave db
                      ⟨(pyGetD req.body "observation_id").toFormat, req.raw,
                       pipe.predict_proba entries, none⟩ with
                  | ok db2 => exact ⟨_, _, rfl⟩
                  | error u => exact ⟨_, _, rfl⟩
  · intro db obs idv tcv hid htc
    unfold update
    rw [hid]
    dsimp only []
    cases hf : db.find? (fun q => q.observation_id == idv.toFormat) with
    | some p =>
      rw [htc]
      exact ⟨_, _, rfl⟩
    | none => exact ⟨_, _, rfl⟩

/-- Concrete instance of C8 (amended): a valid `/predict` request and a
well-formed `/update` request both produce structured responses. -/
theorem handlers_respond_amended_witness :
    (∃ resp db2, predict constPipe [] ⟨validBody, "raw1"⟩ = .ok (resp, db2)) ∧
    (∃ resp db2, update [] updateBody = .ok (resp, db2)) :=
  ⟨handlers_respond_amended.1 constPipe [] ⟨validBody, "raw1"⟩
     (fun v hv => ⟨validObs, by
        rw [show pyGetOpt validBody "data" = some (.dict validObs) from rfl] at hv
        exact (Option.some.inj hv).symm⟩),
   handlers_respond_amended.2 [] updateBody (.str "a1") (.int 1) rfl rfl⟩
